import Mathlib

/-!
Shallow embedding of the Doki sprite tooling:
`tools/sprite_converter.py` (SpriteConverter: load_from_folder, load_from_gif,
generate_palette, write_sprite and its helpers) and
`tools/upload_animation.py` (validate_spr_file).

Bytes are modelled as natural numbers below 256, byte streams as `List Nat`.
Calls into the external Pillow image library (`Image.quantize`) are modelled
as an abstract `Quantizer` record of pure functions, since that code is not
part of this repository.
-/

set_option maxRecDepth 65536
set_option maxHeartbeats 2000000

namespace Doki

/-- Magic number DOKI in ASCII (`SPRITE_MAGIC = 0x444F4B49`). -/
def SPRITE_MAGIC : Nat := 0x444F4B49

/-- `COLOR_FORMAT_INDEXED_8BIT = 0`. -/
def COLOR_FORMAT_INDEXED_8BIT : Nat := 0

/-- `COMPRESSION_NONE = 0`. -/
def COMPRESSION_NONE : Nat := 0

/-- Little-endian byte decomposition of `n` into exactly `w` bytes. -/
def leBytes : Nat → Nat → List Nat
  | 0, _ => []
  | w + 1, n => n % 256 :: leBytes w (n / 256)

/-- `struct.pack` of one unsigned little-endian field of `w` bytes:
`struct.error` (here `none`) when the value does not fit the field. -/
def packU (w n : Nat) : Option (List Nat) :=
  if n < 256 ^ w then some (leBytes w n) else none

/-- One RGB pixel (8 bits per channel). -/
structure RGB where
  r : Nat
  g : Nat
  b : Nat
deriving DecidableEq, Repr

/-- One source frame: a width x height grid of RGB pixels, row-major. -/
structure RawFrame where
  width : Nat
  height : Nat
  pixels : List RGB
deriving DecidableEq, Repr

/-- One palette entry: an (R, G, B, A) quadruple. -/
structure PaletteEntry where
  r : Nat
  g : Nat
  b : Nat
  a : Nat
deriving DecidableEq, Repr

/-- Error kinds of the conversion pipeline (spec section 7 taxonomy; the
Python code raises `ValueError` for the first two and `OSError` for I/O). -/
inductive ConvError where
  | EmptyInput
  | DimensionMismatch
  | IOError
  | IndexError
deriving DecidableEq, Repr

/-- The dimension check of `load_from_folder` (lines 66-71): every frame after
the first must have exactly the first frame's size, otherwise
`raise ValueError(f"Frame {idx} has different size")`. -/
def check_dims (w h : Nat) : List RawFrame → Except ConvError Unit
  | [] => .ok ()
  | f :: rest =>
      if f.width = w ∧ f.height = h then check_dims w h rest
      else .error .DimensionMismatch

/-- `SpriteConverter.load_from_folder`, over the decoded frame list: empty
input raises (`No image files found`), a size mismatch raises, otherwise the
first frame fixes `self.width`/`self.height` and all frames are kept. -/
def load_from_folder (frames : List RawFrame) :
    Except ConvError (Nat × Nat × List RawFrame) :=
  match frames with
  | [] => .error .EmptyInput
  | f :: rest =>
      match check_dims f.width f.height rest with
      | .error e => .error e
      | .ok () => .ok (f.width, f.height, f :: rest)

/-- The fps update of `SpriteConverter.load_from_gif` (lines 95-104):
`gif_fps = int(1000 / duration)` (ZeroDivisionError is swallowed by the bare
`except`, leaving fps unchanged), and the GIF fps is installed only when the
current fps still equals the default 30. -/
def load_from_gif_fps (duration fps : Nat) : Nat :=
  if duration = 0 then fps
  else if fps = 30 then 1000 / duration
  else fps

/-- The palette-building loop of `SpriteConverter.generate_palette`
(lines 142-152): `palette_data = quantized.getpalette()` is consumed three
values per entry for `i in range(256)`, with alpha forced to 255. The
indexing `palette_data[i * 3 + 2]` runs up to index 767, so it raises an
uncaught `IndexError` (here `none`) whenever the library returns fewer than
768 values — which Pillow >= 9.1 (required by this code's use of
`Image.Resampling.LANCZOS`) does for inputs with fewer than 256 distinct
colors. Under the length guard every index is in range, so `getD`'s default
is dead and the accesses equal Python's `palette_data[i * 3]` etc. -/
def generate_palette (palette_data : List Nat) : Option (List PaletteEntry) :=
  if 768 ≤ palette_data.length then
    some ((List.range 256).map fun i =>
      { r := palette_data.getD (i * 3) 0
        g := palette_data.getD (i * 3 + 1) 0
        b := palette_data.getD (i * 3 + 2) 0
        a := 255 })
  else none

/-- Abstract interface to the external Pillow library.
`getPalette` models `combined.quantize(colors=256, method=2).getpalette()`
applied to the pasted-together frame strip; `remap` models the per-pixel
index assignment of `frame.quantize(palette=quantized)`. Both are pure
functions of their arguments: Pillow exposes no other state here. -/
structure Quantizer where
  getPalette : List RawFrame → List Nat
  remap : List Nat → RGB → Nat

/-- The whole of `generate_palette` for one run: build the shared palette from
all frames, then index every frame against it (lines 129-163). Returns the
palette and the indexed frames (one byte value per pixel, row-major, as
`frame.tobytes()` later serialises them), or `none` when the palette loop
raises IndexError on trimmed palette data. -/
def quantize_run (q : Quantizer) (frames : List RawFrame) :
    Option (List PaletteEntry × List (List Nat)) :=
  let pd := q.getPalette frames
  match generate_palette pd with
  | none => none
  | some pal => some (pal, frames.map fun f => f.pixels.map (q.remap pd))

/-- The converter state that `write_sprite` serialises: indexed frames,
dimensions, fps and the generated palette. -/
structure SpriteState where
  frames : List (List Nat)
  width : Nat
  height : Nat
  fps : Nat
  palette : List PaletteEntry
deriving Repr

/-- `SpriteConverter._write_header` (lines 194-208):
`struct.pack('<I H H H H B B B 49s', magic, 1, frameCount, width, height,
fps, colorFormat, compression, 49 zero bytes)`. -/
def write_header (s : SpriteState) : Option (List Nat) :=
  match packU 4 SPRITE_MAGIC, packU 2 1, packU 2 s.frames.length,
    packU 2 s.width, packU 2 s.height, packU 1 s.fps,
    packU 1 COLOR_FORMAT_INDEXED_8BIT, packU 1 COMPRESSION_NONE with
  | some magic, some version, some frameCount, some frameWidth,
    some frameHeight, some fpsField, some colorFormat, some compression =>
      some (magic ++ version ++ frameCount ++ frameWidth ++ frameHeight ++
        fpsField ++ colorFormat ++ compression ++ List.replicate 49 0)
  | _, _, _, _, _, _, _, _ => none

/-- `SpriteConverter._write_palette` (lines 210-213): for each entry,
`struct.pack('BBBB', r, g, b, a)`. -/
def write_palette : List PaletteEntry → Option (List Nat)
  | [] => some []
  | e :: rest =>
      match packU 1 e.r, packU 1 e.g, packU 1 e.b, packU 1 e.a,
        write_palette rest with
      | some br, some bg, some bb, some ba, some restBytes =>
          some (br ++ bg ++ bb ++ ba ++ restBytes)
      | _, _, _, _, _ => none

/-- `SpriteConverter._write_frames` (lines 234-239): each indexed frame's
`tobytes()` written back to back, no offset table, no padding. -/
def write_frames (frames : List (List Nat)) : List Nat := frames.flatten

/-- `SpriteConverter.write_sprite` (lines 166-183), as the byte stream it
produces: 64-byte header, then 1024-byte palette, then the frame data. -/
def write_sprite (s : SpriteState) : Option (List Nat) :=
  match write_header s, write_palette s.palette with
  | some hdr, some pal => some (hdr ++ pal ++ write_frames s.frames)
  | _, _ => none

/-- The expected magic bytes of `upload_animation.validate_spr_file`:
`expected_magic = b'IKOD'` (little-endian bytes of 0x444F4B49). -/
def expected_magic : List Nat := [0x49, 0x4B, 0x4F, 0x44]

/-- `upload_animation.validate_spr_file` (lines 20-51) over the file's bytes:
read 4 bytes; fewer than 4 is invalid; a magic mismatch is invalid; a size
above 1 MiB is invalid; otherwise valid. -/
def validate_spr_file (buf : List Nat) : Bool :=
  let magic_bytes := buf.take 4
  if magic_bytes.length < 4 then false
  else if magic_bytes ≠ expected_magic then false
  else if buf.length > 1024 * 1024 then false
  else true

/-- The state of the output path after a conversion attempt: `none` means no
file exists there; `some bs` means a file holding exactly the bytes `bs`. -/
structure WriteResult where
  file : Option (List Nat)
  outcome : Except ConvError Unit
deriving Repr

/-- Sequential single-pass write of `bs` to a sink accepting at most
`capacity` bytes before raising: `open(path, 'wb')` creates the file first,
and the `with` block closes but never removes it, so the bytes already
written stay on disk when the write raises mid-stream. -/
def writeFile (bs : List Nat) (capacity : Nat) : WriteResult :=
  if bs.length ≤ capacity then ⟨some bs, .ok ()⟩
  else ⟨some (bs.take capacity), .error .IOError⟩

/-- The converter state built by `main` for a folder input: dimensions from
`load_from_folder`, fps from the CLI, palette and indexed frames from
`generate_palette`; `none` when palette generation raises IndexError. -/
def convert_state (q : Quantizer) (w h fps : Nat) (fs : List RawFrame) :
    Option SpriteState :=
  match quantize_run q fs with
  | none => none
  | some run => some ⟨run.2, w, h, fps, run.1⟩

/-- The `main` pipeline for a folder input: load, quantize, serialise. An
error raised while loading or during palette generation aborts before
`open(output_path, 'wb')`, so no file is created; once `write_sprite` has
opened the file, a failure leaves whatever was already written at the
output path. -/
def convert (q : Quantizer) (frames : List RawFrame) (fps capacity : Nat) :
    WriteResult :=
  match load_from_folder frames with
  | .error e => ⟨none, .error e⟩
  | .ok (w, h, fs) =>
      match convert_state q w h fps fs with
      | none => ⟨none, .error .IndexError⟩
      | some s =>
          match write_sprite s with
          | none => ⟨some [], .error .IOError⟩
          | some bs => writeFile bs capacity

/-! ### Helper lemmas -/

theorem leBytes_length (w : Nat) : ∀ n, (leBytes w n).length = w := by
  induction w with
  | zero => intro n; rfl
  | succ w ih => intro n; simp [leBytes, ih]

theorem packU_of_lt {w n : Nat} (h : n < 256 ^ w) :
    packU w n = some (leBytes w n) := by
  simp [packU, h]

theorem packU_eq_some {w n : Nat} {bs : List Nat} (h : packU w n = some bs) :
    bs = leBytes w n ∧ n < 256 ^ w := by
  unfold packU at h
  split at h
  · exact ⟨(Option.some.inj h).symm, by assumption⟩
  · exact absurd h (by simp)

theorem write_header_eq_some {s : SpriteState} {bs : List Nat}
    (h : write_header s = some bs) :
    bs = leBytes 4 SPRITE_MAGIC ++ leBytes 2 1 ++ leBytes 2 s.frames.length ++
      leBytes 2 s.width ++ leBytes 2 s.height ++ leBytes 1 s.fps ++
      leBytes 1 0 ++ leBytes 1 0 ++ List.replicate 49 0 ∧
    s.frames.length < 256 ^ 2 ∧ s.width < 256 ^ 2 ∧ s.height < 256 ^ 2 ∧
    s.fps < 256 ^ 1 := by
  unfold write_header at h
  rw [packU_of_lt (show SPRITE_MAGIC < 256 ^ 4 by norm_num [SPRITE_MAGIC]),
    packU_of_lt (show 1 < 256 ^ 2 by norm_num),
    packU_of_lt (show COLOR_FORMAT_INDEXED_8BIT < 256 ^ 1 by
      norm_num [COLOR_FORMAT_INDEXED_8BIT]),
    packU_of_lt (show COMPRESSION_NONE < 256 ^ 1 by
      norm_num [COMPRESSION_NONE])] at h
  cases hfc : packU 2 s.frames.length with
  | none => rw [hfc] at h; exact Option.noConfusion h
  | some fc =>
  cases hw : packU 2 s.width with
  | none => rw [hfc, hw] at h; exact Option.noConfusion h
  | some wB =>
  cases hh : packU 2 s.height with
  | none => rw [hfc, hw, hh] at h; exact Option.noConfusion h
  | some hB =>
  cases hfps : packU 1 s.fps with
  | none => rw [hfc, hw, hh, hfps] at h; exact Option.noConfusion h
  | some fB =>
    rw [hfc, hw, hh, hfps] at h
    obtain ⟨e1, l1⟩ := packU_eq_some hfc
    obtain ⟨e2, l2⟩ := packU_eq_some hw
    obtain ⟨e3, l3⟩ := packU_eq_some hh
    obtain ⟨e4, l4⟩ := packU_eq_some hfps
    subst e1 e2 e3 e4
    injection h with hb
    refine ⟨?_, l1, l2, l3, l4⟩
    rw [← hb]
    rfl

theorem write_header_length {s : SpriteState} {bs : List Nat}
    (h : write_header s = some bs) : bs.length = 64 := by
  obtain ⟨hbs, -⟩ := write_header_eq_some h
  subst hbs
  simp [leBytes_length]

theorem write_palette_eq_some (pal : List PaletteEntry)
    (h : ∀ e ∈ pal, e.r < 256 ∧ e.g < 256 ∧ e.b < 256 ∧ e.a < 256) :
    ∃ bs, write_palette pal = some bs ∧ bs.length = 4 * pal.length := by
  induction pal with
  | nil => exact ⟨[], rfl, rfl⟩
  | cons e rest ih =>
      obtain ⟨hr, hg, hb, ha⟩ := h e (by simp)
      obtain ⟨bs, hbs, hlen⟩ := ih (fun x hx => h x (by simp [hx]))
      refine ⟨leBytes 1 e.r ++ leBytes 1 e.g ++ leBytes 1 e.b ++
        leBytes 1 e.a ++ bs, ?_, ?_⟩
      · unfold write_palette
        rw [packU_of_lt (show e.r < 256 ^ 1 by simpa using hr),
          packU_of_lt (show e.g < 256 ^ 1 by simpa using hg),
          packU_of_lt (show e.b < 256 ^ 1 by simpa using hb),
          packU_of_lt (show e.a < 256 ^ 1 by simpa using ha), hbs]
      · simp [leBytes_length, hlen]
        omega

theorem write_palette_some_length {pal : List PaletteEntry} {bs : List Nat}
    (h : write_palette pal = some bs) : bs.length = 4 * pal.length := by
  induction pal generalizing bs with
  | nil => cases h; rfl
  | cons e rest ih =>
      unfold write_palette at h
      cases h1 : packU 1 e.r with
      | none => rw [h1] at h; simp at h
      | some b1 =>
      cases h2 : packU 1 e.g with
      | none => rw [h1, h2] at h; simp at h
      | some b2 =>
      cases h3 : packU 1 e.b with
      | none => rw [h1, h2, h3] at h; simp at h
      | some b3 =>
      cases h4 : packU 1 e.a with
      | none => rw [h1, h2, h3, h4] at h; simp at h
      | some b4 =>
      cases h5 : write_palette rest with
      | none => rw [h1, h2, h3, h4, h5] at h; simp at h
      | some rbs =>
          rw [h1, h2, h3, h4, h5] at h
          obtain ⟨e1, -⟩ := packU_eq_some h1
          obtain ⟨e2, -⟩ := packU_eq_some h2
          obtain ⟨e3, -⟩ := packU_eq_some h3
          obtain ⟨e4, -⟩ := packU_eq_some h4
          subst e1 e2 e3 e4
          injection h with hb
          rw [← hb]
          simp [leBytes_length, ih h5]
          omega

theorem flatten_length_const {L : Nat} {fs : List (List Nat)}
    (h : ∀ f ∈ fs, f.length = L) : fs.flatten.length = fs.length * L := by
  induction fs with
  | nil => simp
  | cons f rest ih =>
      have hf : f.length = L := h f (by simp)
      simp only [List.flatten_cons, List.length_append, List.length_cons,
        ih (fun x hx => h x (by simp [hx])), hf]
      ring

theorem flatten_drop_mul {L : Nat} (n : Nat) (fs : List (List Nat))
    (h : ∀ f ∈ fs, f.length = L) :
    fs.flatten.drop (n * L) = (fs.drop n).flatten := by
  induction n generalizing fs with
  | zero => simp
  | succ n ih =>
      cases fs with
      | nil => simp
      | cons f rest =>
          have hf : f.length = L := h f (by simp)
          rw [List.flatten_cons,
            show (n + 1) * L = f.length + n * L by rw [hf]; ring,
            List.drop_append, List.drop_succ_cons,
            ih rest (fun x hx => h x (by simp [hx]))]

theorem flatten_extract {L : Nat} {fs : List (List Nat)}
    (h : ∀ f ∈ fs, f.length = L) {n : Nat} (hn : n < fs.length) :
    (fs.flatten.drop (n * L)).take L = fs.getD n [] := by
  rw [flatten_drop_mul n fs h, List.drop_eq_getElem_cons hn,
    List.flatten_cons]
  have hg : (fs[n]).length = L := h _ (fs.getElem_mem hn)
  rw [← hg, List.take_left, List.getD_eq_getElem _ _ hn]

theorem take_pre {α : Type} {A R : List α} {n : Nat} (h : A.length = n) :
    (A ++ R).take n = A := by
  rw [← h, List.take_left]

theorem drop_pre {α : Type} {A R : List α} {n : Nat} (h : A.length = n) :
    (A ++ R).drop n = R := by
  rw [← h, List.drop_left]

theorem write_sprite_eq_some {s : SpriteState} {bs : List Nat}
    (h : write_sprite s = some bs) :
    ∃ hdr pal, write_header s = some hdr ∧
      write_palette s.palette = some pal ∧
      bs = hdr ++ pal ++ write_frames s.frames := by
  unfold write_sprite at h
  cases h1 : write_header s with
  | none => rw [h1] at h; exact Option.noConfusion h
  | some hdr =>
  cases h2 : write_palette s.palette with
  | none => rw [h1, h2] at h; exact Option.noConfusion h
  | some pal =>
      rw [h1, h2] at h
      injection h with hb
      exact ⟨hdr, pal, rfl, rfl, hb.symm⟩

theorem write_header_of_ranges (s : SpriteState)
    (hfc : s.frames.length < 65536) (hw : s.width < 65536)
    (hh : s.height < 65536) (hfps : s.fps < 256) :
    write_header s = some (leBytes 4 SPRITE_MAGIC ++ leBytes 2 1 ++
      leBytes 2 s.frames.length ++ leBytes 2 s.width ++ leBytes 2 s.height ++
      leBytes 1 s.fps ++ leBytes 1 0 ++ leBytes 1 0 ++
      List.replicate 49 0) := by
  have p2 : (256 : Nat) ^ 2 = 65536 := by norm_num
  have p1 : (256 : Nat) ^ 1 = 256 := by norm_num
  unfold write_header
  rw [packU_of_lt (show SPRITE_MAGIC < 256 ^ 4 by norm_num [SPRITE_MAGIC]),
    packU_of_lt (show 1 < 256 ^ 2 by norm_num),
    packU_of_lt (show s.frames.length < 256 ^ 2 from p2 ▸ hfc),
    packU_of_lt (show s.width < 256 ^ 2 from p2 ▸ hw),
    packU_of_lt (show s.height < 256 ^ 2 from p2 ▸ hh),
    packU_of_lt (show s.fps < 256 ^ 1 from p1 ▸ hfps),
    packU_of_lt (show COLOR_FORMAT_INDEXED_8BIT < 256 ^ 1 by
      norm_num [COLOR_FORMAT_INDEXED_8BIT]),
    packU_of_lt (show COMPRESSION_NONE < 256 ^ 1 by
      norm_num [COMPRESSION_NONE])]
  rfl

/-! ### Concrete fixtures (the spec's concrete scenario) -/

/-- Three 4x4 all-black RGB frames (the spec's concrete scenario). -/
def testFrames : List RawFrame :=
  List.replicate 3 ⟨4, 4, List.replicate 16 ⟨0, 0, 0⟩⟩

/-- Pillow >= 9.1 on an all-black input: `quantize(colors=256, method=2)`
keeps the single used color, so `getpalette()` returns just the 3 values
`[0, 0, 0]`, and every pixel maps to index 0. -/
def trimmedBlackQuantizer : Quantizer := ⟨fun _ => [0, 0, 0], fun _ _ => 0⟩

/-- One 16x16 frame whose 256 pixels take 256 distinct colors (the red
channel runs over 0..255). -/
def colorfulFrame : RawFrame :=
  ⟨16, 16, (List.range 256).map fun i => ⟨i, 0, 0⟩⟩

/-- A one-frame sequence with 256 distinct colors: quantization genuinely
uses all 256 palette slots, so `getpalette()` is a full 768-value list and
the run reaches serialization. -/
def colorfulFrames : List RawFrame := [colorfulFrame]

/-- The full 768-value `getpalette()` list for `colorfulFrames`: palette
entry `i` is `(i, 0, 0)`. -/
def colorfulPaletteData : List Nat :=
  (List.range 768).map fun j => if j % 3 = 0 then j / 3 else 0

/-- Pillow on the 256-distinct-color input: the complete palette data above,
each pixel remapped to the index matching its red channel. -/
def fullQuantizer : Quantizer :=
  ⟨fun _ => colorfulPaletteData, fun _ p => p.r⟩

/-- The 256-entry palette that `generate_palette` builds from
`colorfulPaletteData`: entry `i` is `(i, 0, 0, 255)`. -/
def colorfulPalette : List PaletteEntry :=
  (List.range 256).map fun i => ⟨i, 0, 0, 255⟩

/-- The converter state the pipeline reaches on `colorfulFrames` at fps 10:
one indexed frame `0..255` and the palette above. -/
def colorfulState : SpriteState :=
  ⟨[List.range 256], 16, 16, 10, colorfulPalette⟩

theorem cpd_getD {j : Nat} (hj : j < 768) :
    colorfulPaletteData.getD j 0 = if j % 3 = 0 then j / 3 else 0 := by
  unfold colorfulPaletteData
  rw [List.getD_eq_getElem _ _ (by simpa using hj)]
  simp

theorem generate_palette_colorful :
    generate_palette colorfulPaletteData = some colorfulPalette := by
  have hlen : colorfulPaletteData.length = 768 := by
    simp [colorfulPaletteData]
  unfold generate_palette
  rw [if_pos (by rw [hlen])]
  refine congrArg some ?_
  unfold colorfulPalette
  apply List.map_congr_left
  intro i hi
  simp only [List.mem_range] at hi
  have hr := cpd_getD (show i * 3 < 768 by omega)
  have hg := cpd_getD (show i * 3 + 1 < 768 by omega)
  have hb := cpd_getD (show i * 3 + 2 < 768 by omega)
  have e1 : i * 3 % 3 = 0 := by omega
  have e2 : ¬(i * 3 + 1) % 3 = 0 := by omega
  have e3 : ¬(i * 3 + 2) % 3 = 0 := by omega
  have e4 : i * 3 / 3 = i := by omega
  rw [hr, hg, hb, if_pos e1, if_neg e2, if_neg e3, e4]

/-- The quantization step on the colorful input: the full palette and the
identity-indexed frame. -/
theorem quantize_run_colorful :
    quantize_run fullQuantizer colorfulFrames =
      some (colorfulPalette, [List.range 256]) := by
  unfold quantize_run
  dsimp only
  rw [show fullQuantizer.getPalette colorfulFrames = colorfulPaletteData
    from rfl, generate_palette_colorful]
  dsimp only
  have hpix : colorfulFrame.pixels.map
      (fullQuantizer.remap colorfulPaletteData) = List.range 256 := by
    rfl
  rw [show colorfulFrames = [colorfulFrame] from rfl]
  simp only [List.map_cons, List.map_nil, hpix]

/-- The pipeline really reaches `colorfulState` on the colorful input. -/
theorem convert_state_colorful :
    convert_state fullQuantizer 16 16 10 colorfulFrames =
      some colorfulState := by
  unfold convert_state
  rw [quantize_run_colorful]
  rfl

/-- The serialized colorful container's byte stream. -/
def colorfulBytes : List Nat := (write_sprite colorfulState).getD []

theorem write_sprite_colorful :
    write_sprite colorfulState = some colorfulBytes := by
  rfl

theorem colorfulBytes_length : colorfulBytes.length = 1344 := by
  rfl

/-- A conversion whose load and quantization succeed hands the serialized
bytes to the sink. -/
theorem convert_eq_writeFile {q : Quantizer} {frames : List RawFrame}
    {fps cap w h : Nat} {fs : List RawFrame} {s : SpriteState}
    {bs : List Nat} (h1 : load_from_folder frames = .ok (w, h, fs))
    (h2 : convert_state q w h fps fs = some s)
    (h3 : write_sprite s = some bs) :
    convert q frames fps cap = writeFile bs cap := by
  unfold convert
  rw [h1]
  dsimp only
  rw [h2]
  dsimp only
  rw [h3]

/-! ### Claim theorems -/

/-- C1: every successfully encoded container is the 64-byte header, the
1024-byte palette, then the frames back to back (one byte per pixel,
row-major, no offset table): frame `n` starts at byte `1088 + n*w*h`, the
total size is `1088 + N*w*h`, and bytes 6-7 hold the frame count in
little-endian order. -/
theorem c1_container_layout (s : SpriteState)
    (hfc : s.frames.length < 65536) (hw : s.width < 65536)
    (hh : s.height < 65536) (hfps : s.fps < 256)
    (hpal : s.palette.length = 256)
    (hpr : ∀ e ∈ s.palette,
      e.r < 256 ∧ e.g < 256 ∧ e.b < 256 ∧ e.a < 256)
    (hfr : ∀ fr ∈ s.frames, fr.length = s.width * s.height) :
    ∃ bs, write_sprite s = some bs ∧
      (∃ hdr pal, write_header s = some hdr ∧
        write_palette s.palette = some pal ∧ hdr.length = 64 ∧
        pal.length = 1024 ∧ bs = hdr ++ pal ++ write_frames s.frames) ∧
      bs.length = 1088 + s.frames.length * (s.width * s.height) ∧
      (∀ n, n < s.frames.length →
        (bs.drop (1088 + n * (s.width * s.height))).take
          (s.width * s.height) = s.frames.getD n []) ∧
      (bs.drop 6).take 2 = leBytes 2 s.frames.length := by
  obtain ⟨pal, hpalB, hplen0⟩ := write_palette_eq_some s.palette hpr
  have hplen : pal.length = 1024 := by rw [hplen0, hpal]
  have hhdr := write_header_of_ranges s hfc hw hh hfps
  obtain ⟨hdr, hhdr, hstruct⟩ : ∃ hdr, write_header s = some hdr ∧
      hdr = leBytes 4 SPRITE_MAGIC ++ leBytes 2 1 ++
        leBytes 2 s.frames.length ++ leBytes 2 s.width ++
        leBytes 2 s.height ++ leBytes 1 s.fps ++ leBytes 1 0 ++
        leBytes 1 0 ++ List.replicate 49 0 := ⟨_, hhdr, rfl⟩
  have hdrLen : hdr.length = 64 := by
    rw [hstruct]; simp [leBytes_length]
  have hws : write_sprite s = some (hdr ++ pal ++ write_frames s.frames) := by
    unfold write_sprite
    rw [hhdr, hpalB]
  refine ⟨hdr ++ pal ++ write_frames s.frames, hws,
    ⟨hdr, pal, hhdr, hpalB, hdrLen, hplen, rfl⟩, ?_, ?_, ?_⟩
  · have hl := flatten_length_const hfr
    simp only [List.length_append, hdrLen, hplen, write_frames, hl]
  · intro n hn
    have hfront : (hdr ++ pal).length = 1088 := by
      simp [hdrLen, hplen]
    rw [show 1088 + n * (s.width * s.height) =
        (hdr ++ pal).length + n * (s.width * s.height) by rw [hfront],
      List.drop_append]
    exact flatten_extract hfr hn
  · have key : hdr ++ pal ++ write_frames s.frames =
        (leBytes 4 SPRITE_MAGIC ++ leBytes 2 1) ++
          (leBytes 2 s.frames.length ++ (leBytes 2 s.width ++
            (leBytes 2 s.height ++ (leBytes 1 s.fps ++ (leBytes 1 0 ++
              (leBytes 1 0 ++ (List.replicate 49 0 ++
                (pal ++ write_frames s.frames)))))))) := by
      rw [hstruct]
      simp [List.append_assoc]
    rw [key,
      drop_pre (show (leBytes 4 SPRITE_MAGIC ++ leBytes 2 1).length = 6 by
        simp [leBytes_length]),
      take_pre (leBytes_length 2 s.frames.length)]

/-- C1 witness: the 256-distinct-color one-frame input (which really reaches
serialization) gives a 1344-byte stream (1088 + 1*16*16) whose bytes 6-7 are
`[1, 0]` and whose frame data starts at offset 1088. -/
theorem c1_container_layout_witness :
    ∃ bs, write_sprite colorfulState = some bs ∧ bs.length = 1344 ∧
      (bs.drop 6).take 2 = [1, 0] ∧
      (bs.drop 1088).take 256 = List.range 256 := by
  obtain ⟨bs, h1, -, h2, h3, h4⟩ :=
    c1_container_layout colorfulState (by decide) (by decide) (by decide)
      (by decide) (by decide) (by decide) (by decide)
  refine ⟨bs, h1, ?_, ?_, ?_⟩
  · rw [h2]; rfl
  · rw [h4]; rfl
  · have h5 := h3 0 (by decide)
    have h16 : colorfulState.width * colorfulState.height = 256 := rfl
    rw [h16] at h5
    norm_num at h5
    rw [h5]
    rfl

/-- C1 counterexample to the concrete scenario: on the three all-black 4x4
frames the quantizer's trimmed 3-value palette data makes `generate_palette`
raise IndexError, so the conversion aborts before opening the output path
and no 1136-byte file is ever produced. -/
theorem c1_scenario_no_file :
    generate_palette [0, 0, 0] = none ∧
    convert trimmedBlackQuantizer testFrames 10 2000 =
      ⟨none, .error .IndexError⟩ :=
  ⟨rfl, rfl⟩

/-- C2: every container produced by the encoder starts with the raw bytes
`49 4B 4F 44` (the little-endian encoding of `SPRITE_MAGIC = 0x444F4B49`),
followed at offset 4 by the 16-bit little-endian version field 1. -/
theorem c2_magic_and_version (s : SpriteState) (bs : List Nat)
    (h : write_sprite s = some bs) :
    bs.take 4 = [0x49, 0x4B, 0x4F, 0x44] ∧ (bs.drop 4).take 2 = [1, 0] := by
  obtain ⟨hdr, pal, hh, hp, hbs⟩ := write_sprite_eq_some h
  obtain ⟨hstruct, -⟩ := write_header_eq_some hh
  subst hbs
  have key : hdr ++ pal ++ write_frames s.frames =
      leBytes 4 SPRITE_MAGIC ++ (leBytes 2 1 ++
        (leBytes 2 s.frames.length ++ (leBytes 2 s.width ++
          (leBytes 2 s.height ++ (leBytes 1 s.fps ++ (leBytes 1 0 ++
            (leBytes 1 0 ++ (List.replicate 49 0 ++
              (pal ++ write_frames s.frames))))))))) := by
    rw [hstruct]
    simp [List.append_assoc]
  constructor
  · rw [key, take_pre (leBytes_length 4 SPRITE_MAGIC)]
    rfl
  · rw [key, drop_pre (leBytes_length 4 SPRITE_MAGIC),
      take_pre (leBytes_length 2 1)]
    rfl

/-- C2 witness: the concrete 256-color one-frame container starts with
`I K O D` and version bytes `[1, 0]`. -/
theorem c2_magic_and_version_witness :
    ((write_sprite colorfulState).getD []).take 4 =
      [0x49, 0x4B, 0x4F, 0x44] ∧
    (((write_sprite colorfulState).getD []).drop 4).take 2 = [1, 0] := by
  have h : write_sprite colorfulState =
      some ((write_sprite colorfulState).getD []) := rfl
  exact c2_magic_and_version colorfulState _ h

/-- C3: the palette loop does not always produce 256 entries — on the
trimmed palette data real quantization returns for a single-color frame set
it raises IndexError (`none`) instead; only complete 768-value palette data
yields the claimed 256 fully opaque entries serialised as 1024 bytes. -/
theorem c3_trimmed_palette_crash :
    generate_palette [0, 0, 0] = none ∧
    ∃ pal, generate_palette colorfulPaletteData = some pal ∧
      pal.length = 256 ∧ (∀ e ∈ pal, e.a = 255) ∧
      ∃ bs, write_palette pal = some bs ∧ bs.length = 1024 := by
  refine ⟨rfl, colorfulPalette, generate_palette_colorful, by decide,
    by decide, (write_palette colorfulPalette).getD [], rfl, rfl⟩

/-- C5: the upload validator reports invalid for every buffer shorter than
4 bytes and for every buffer whose first 4 bytes differ from `49 4B 4F 44`;
the exact 4-byte magic buffer passes validation and the 4-byte all-zero
buffer fails it. -/
theorem c5_validator_magic :
    (∀ buf : List Nat, buf.length < 4 → validate_spr_file buf = false) ∧
    (∀ buf : List Nat, buf.take 4 ≠ expected_magic →
      validate_spr_file buf = false) ∧
    validate_spr_file [0x49, 0x4B, 0x4F, 0x44] = true ∧
    validate_spr_file [0, 0, 0, 0] = false := by
  refine ⟨?_, ?_, by decide, by decide⟩
  · intro buf h
    have hlen : (buf.take 4).length < 4 := by
      simp only [List.length_take]
      omega
    simp only [validate_spr_file]
    simp [hlen]
    intro h1 _
    omega
  · intro buf h
    by_cases hlen : (buf.take 4).length < 4
    · simp only [validate_spr_file]
      simp [hlen]
      intro _ h2
      exact absurd h2 h
    · simp [validate_spr_file, hlen, h]

/-- C5 witness: a 3-byte buffer and a 5-byte buffer with a wrong magic are
both rejected. -/
theorem c5_validator_magic_witness :
    validate_spr_file [1, 2, 3] = false ∧
    validate_spr_file [9, 9, 9, 9, 9] = false :=
  ⟨c5_validator_magic.1 [1, 2, 3] (by decide),
   c5_validator_magic.2.1 [9, 9, 9, 9, 9] (by decide)⟩

theorem check_dims_mismatch {w h : Nat} {l : List RawFrame}
    (hm : ∃ g ∈ l, g.width ≠ w ∨ g.height ≠ h) :
    check_dims w h l = .error .DimensionMismatch := by
  induction l with
  | nil => simp at hm
  | cons f rest ih =>
      unfold check_dims
      by_cases hf : f.width = w ∧ f.height = h
      · rw [if_pos hf]
        apply ih
        obtain ⟨g, hg, hor⟩ := hm
        rcases List.mem_cons.mp hg with rfl | hgr
        · exact absurd hf (by tauto)
        · exact ⟨g, hgr, hor⟩
      · rw [if_neg hf]

/-- C6: if some frame's width or height differs from the first frame's,
loading fails with DimensionMismatch and the pipeline produces no output
file. -/
theorem c6_dimension_mismatch (f : RawFrame) (rest : List RawFrame)
    (hm : ∃ g ∈ rest, g.width ≠ f.width ∨ g.height ≠ f.height) :
    load_from_folder (f :: rest) = .error .DimensionMismatch ∧
    ∀ q fps cap, convert q (f :: rest) fps cap =
      ⟨none, .error .DimensionMismatch⟩ := by
  have hc := check_dims_mismatch hm
  have hload : load_from_folder (f :: rest) = .error .DimensionMismatch := by
    simp [load_from_folder, hc]
  refine ⟨hload, fun q fps cap => ?_⟩
  unfold convert
  rw [hload]

/-- C6 witness: a 4x4 first frame followed by a 2x4 frame fails with
DimensionMismatch. -/
theorem c6_dimension_mismatch_witness :
    load_from_folder [⟨4, 4, []⟩, ⟨2, 4, []⟩] =
      .error .DimensionMismatch :=
  (c6_dimension_mismatch ⟨4, 4, []⟩ [⟨2, 4, []⟩] (by decide)).1

/-- C7: with zero frames the conversion fails with EmptyInput and no output
file is written. -/
theorem c7_empty_input (q : Quantizer) (fps capacity : Nat) :
    load_from_folder [] = .error .EmptyInput ∧
    convert q [] fps capacity = ⟨none, .error .EmptyInput⟩ ∧
    (convert q [] fps capacity).file = none :=
  ⟨rfl, rfl, rfl⟩

/-- C8: quantizing the same ordered frame sequence twice produces
bit-identical palettes and identical per-pixel index assignments. -/
theorem c8_determinism (q : Quantizer) (frames : List RawFrame)
    (p₁ p₂ : List PaletteEntry) (i₁ i₂ : List (List Nat))
    (h₁ : quantize_run q frames = some (p₁, i₁))
    (h₂ : quantize_run q frames = some (p₂, i₂)) :
    p₁ = p₂ ∧ i₁ = i₂ := by
  have h := h₁.symm.trans h₂
  injection h with h
  exact ⟨congrArg Prod.fst h, congrArg Prod.snd h⟩

/-- C8 witness: two runs on the 256-color one-frame input agree. -/
theorem c8_determinism_witness :
    colorfulPalette = colorfulPalette ∧
    ([List.range 256] : List (List Nat)) = [List.range 256] :=
  c8_determinism fullQuantizer colorfulFrames _ _ _ _
    quantize_run_colorful quantize_run_colorful

/-- C9 counterexample: a conversion that genuinely reaches serialization
(the 256-distinct-color input, whose full palette data passes the palette
loop) with a sink failing after 100 bytes raises IOError yet leaves a
100-byte partial file at the output path, so a failing run does not always
leave the output path empty. -/
theorem c9_partial_file_counterexample :
    (convert fullQuantizer colorfulFrames 10 100).outcome =
      .error .IOError ∧
    (convert fullQuantizer colorfulFrames 10 100).file ≠ none ∧
    ∃ bs, (convert fullQuantizer colorfulFrames 10 100).file = some bs ∧
      bs.length = 100 := by
  have hconv : convert fullQuantizer colorfulFrames 10 100 =
      ⟨some (colorfulBytes.take 100), .error .IOError⟩ := by
    rw [convert_eq_writeFile (show load_from_folder colorfulFrames =
        .ok (16, 16, colorfulFrames) from rfl) convert_state_colorful
      write_sprite_colorful]
    unfold writeFile
    rw [if_neg (by rw [colorfulBytes_length]; omega)]
  rw [hconv]
  refine ⟨rfl, fun hcontra => Option.noConfusion hcontra,
    colorfulBytes.take 100, rfl, ?_⟩
  rw [List.length_take, colorfulBytes_length]
  omega

/-- C9 amended: failures raised before serialization — EmptyInput or
DimensionMismatch while loading, IndexError in palette generation — happen
before the output file is opened, so no file is left; an IOError raised
mid-serialization leaves exactly the byte prefix already written at the
output path. -/
theorem c9_no_partial_on_load_failure :
    (∀ (q : Quantizer) (frames : List RawFrame) (fps cap : Nat)
      (e : ConvError), load_from_folder frames = .error e →
      convert q frames fps cap = ⟨none, .error e⟩) ∧
    (∀ (q : Quantizer) (frames : List RawFrame) (fps cap w h : Nat)
      (fs : List RawFrame), load_from_folder frames = .ok (w, h, fs) →
      convert_state q w h fps fs = none →
      convert q frames fps cap = ⟨none, .error .IndexError⟩) ∧
    (∀ (q : Quantizer) (frames : List RawFrame) (fps cap w h : Nat)
      (fs : List RawFrame) (s : SpriteState) (bs : List Nat),
      load_from_folder frames = .ok (w, h, fs) →
      convert_state q w h fps fs = some s →
      write_sprite s = some bs →
      cap < bs.length →
      convert q frames fps cap =
        ⟨some (bs.take cap), .error .IOError⟩) := by
  refine ⟨?_, ?_, ?_⟩
  · intro q frames fps cap e he
    unfold convert
    rw [he]
  · intro q frames fps cap w h fs hload hq
    unfold convert
    rw [hload]
    dsimp only
    rw [hq]
  · intro q frames fps cap w h fs s bs hload hq hws hcap
    unfold convert
    rw [hload]
    dsimp only
    rw [hq]
    dsimp only
    rw [hws]
    dsimp only [writeFile]
    rw [if_neg (by omega)]

/-- C9 amended witness: the empty input and the trimmed-palette input leave
no file, while the 256-color input with a 100-byte sink leaves a truncated
file. -/
theorem c9_no_partial_on_load_failure_witness :
    convert fullQuantizer ([] : List RawFrame) 0 0 =
      ⟨none, .error .EmptyInput⟩ ∧
    convert trimmedBlackQuantizer testFrames 10 2000 =
      ⟨none, .error .IndexError⟩ ∧
    convert fullQuantizer colorfulFrames 10 100 =
      ⟨some (colorfulBytes.take 100), .error .IOError⟩ := by
  refine ⟨?_, ?_, ?_⟩
  · exact c9_no_partial_on_load_failure.1 fullQuantizer [] 0 0 _ rfl
  · exact c9_no_partial_on_load_failure.2.1 trimmedBlackQuantizer testFrames
      10 2000 4 4 testFrames rfl rfl
  · exact c9_no_partial_on_load_failure.2.2 fullQuantizer colorfulFrames
      10 100 16 16 colorfulFrames colorfulState colorfulBytes rfl
      convert_state_colorful write_sprite_colorful
      (by rw [colorfulBytes_length]; omega)

/-- C10: when loading a GIF with a valid frame duration, the GIF-derived fps
replaces the configured fps exactly when the configured fps equals the
default 30; any other configured fps is preserved. -/
theorem c10_gif_fps_default_override (duration fps : Nat)
    (hd : duration ≠ 0) :
    (fps = 30 → load_from_gif_fps duration fps = 1000 / duration) ∧
    (fps ≠ 30 → load_from_gif_fps duration fps = fps) := by
  unfold load_from_gif_fps
  rw [if_neg hd]
  constructor
  · intro h30
    rw [if_pos h30]
  · intro h30
    rw [if_neg h30]

/-- C10 witness: with duration 50 ms, requesting 30 fps yields the GIF's
20 fps, while requesting 24 fps keeps 24. -/
theorem c10_gif_fps_default_override_witness :
    load_from_gif_fps 50 30 = 20 ∧ load_from_gif_fps 50 24 = 24 :=
  ⟨((c10_gif_fps_default_override 50 30 (by decide)).1 rfl).trans
      (by norm_num),
   (c10_gif_fps_default_override 50 24 (by decide)).2 (by decide)⟩

end Doki
